import Mathlib

/-!
Verification of the estimation core of `server_embedded.py`: a safetensors
header extractor (two HTTP range requests decoding a length-prefixed JSON
metadata block) and a memory estimator (model-id validation, file-tree
listing, shard-index resolution, per-tensor aggregation, and human-readable
formatting).  HTTP transport and JSON parsing are external effects; they are
modelled as explicit function parameters (`client`, `parseFiles`,
`parseIdx`, `parseMeta`), so every theorem quantifies over all transports
and parsers.  Float formatting (`f"{x:.2f}"`) is modelled by exact rational
arithmetic on unreduced numerator/denominator pairs with round-half-to-even,
which agrees with CPython's formatting whenever the float argument is
exactly representable (as it is at every value the claims test).
-/

/-- An HTTP response: status code and body bytes. -/
structure Resp where
  status : Nat
  content : List Nat
deriving DecidableEq

deriving instance DecidableEq for Except

/-- A transport fault raised by `httpx` (timeout or any other exception). -/
inductive Fault where
  | timeout
  | other (msg : String)
deriving DecidableEq

/-- An outbound request: a plain GET, or a GET with a `Range` header
covering bytes `first`..`last` inclusive (`bytes=first-last`). -/
inductive Req where
  | plain (url : String)
  | range (url : String) (first : Nat) (last : Nat)
deriving DecidableEq

/-- One entry of the model file-tree listing (only `path` is consumed). -/
structure FileEntry where
  path : String
deriving DecidableEq

/-- Parsed shard-index JSON: the optional `weight_map` object as an
association list from tensor name to shard filename. -/
structure IdxData where
  weight_map : Option (List (String × String))
deriving DecidableEq

/-- One tensor record of a parsed safetensors header: the `dtype` and
`shape` fields, each possibly absent. -/
structure TensorInfo where
  dtype : Option String
  shape : Option (List Nat)
deriving DecidableEq

/-- A parsed safetensors header: JSON object as an association list in
insertion order. -/
abbrev Meta := List (String × TensorInfo)

/-- The success payload of `estimate_memory` (field for field the dict
built at the end of the Python function; `other_precisions` inlined). -/
structure Report where
  model : String
  total_parameters : String
  memory_required : String
  current_dtype : String
  recommended_vram : String
  fp32 : String
  fp16 : String
  int8 : String
  int4 : String
  overhead_note : String
deriving DecidableEq

/-- Result of `estimate_memory`: either an `{"error": msg}` dict or a
success report. -/
inductive EstimateResult where
  | error (msg : String)
  | ok (r : Report)
deriving DecidableEq

/-- The `DTYPE_SIZES` table: bytes per dtype for memory calculation. -/
def DTYPE_SIZES : List (String × Nat) :=
  [("F64", 8), ("F32", 4), ("BF16", 2), ("F16", 2),
   ("F8_E4M3", 1), ("F8_E5M2", 1), ("I64", 8), ("I32", 4),
   ("I16", 2), ("I8", 1), ("U8", 1), ("BOOL", 1)]

/-- `DTYPE_SIZES.get(dtype, 4)`. -/
def dtypeSize (d : String) : Nat := (DTYPE_SIZES.lookup d).getD 4

/-- Value of a byte list read as an unsigned little-endian integer. -/
def le_value : List Nat → Nat
  | [] => 0
  | b :: rest => b + 256 * le_value rest

/-- `struct.unpack("<Q", bs)[0]`: requires exactly 8 bytes (a
`struct.error` on any other length is caught by the caller). -/
def decode_le64 (bs : List Nat) : Option Nat :=
  if bs.length = 8 then some (le_value bs) else none

/-- `get_safetensor_metadata`: fetch the safetensors header via two range
requests.  Returns the parsed header (or `none` on any fault, bad status,
bad length prefix or malformed JSON, mirroring the blanket
`except Exception: return None`) together with the list of range requests
issued, in order. -/
def get_safetensor_metadata (client : Req → Except Fault Resp)
    (parseMeta : List Nat → Option Meta) (url : String) :
    Option Meta × List Req :=
  match client (.range url 0 7) with
  | .error _ => (none, [.range url 0 7])
  | .ok r1 =>
    if r1.status = 200 ∨ r1.status = 206 then
      match decode_le64 r1.content with
      | none => (none, [.range url 0 7])
      | some n =>
        match client (.range url 8 (8 + n - 1)) with
        | .error _ => (none, [.range url 0 7, .range url 8 (8 + n - 1)])
        | .ok r2 =>
          if r2.status = 200 ∨ r2.status = 206 then
            (parseMeta r2.content, [.range url 0 7, .range url 8 (8 + n - 1)])
          else (none, [.range url 0 7, .range url 8 (8 + n - 1)])
    else (none, [.range url 0 7])

/-- Python-dict update `dtype_counts[d] = dtype_counts.get(d, 0) + p` on an
association list kept in key-insertion order. -/
def addCount : List (String × Nat) → String → Nat → List (String × Nat)
  | [], d, p => [(d, p)]
  | (k, v) :: rest, d, p =>
    if k = d then (k, v + p) :: rest else (k, v) :: addCount rest d p

/-- Inner loop of `max(dtype_counts, key=dtype_counts.get)`: the running
best is replaced only by a strictly larger value, so the first maximal
entry wins. -/
def maxKeyAux (best : String × Nat) : List (String × Nat) → String
  | [] => best.1
  | p :: rest => if p.2 > best.2 then maxKeyAux p rest else maxKeyAux best rest

/-- `max(counts, key=counts.get)`; `none` on the empty dict (where Python
would raise `ValueError`). -/
def maxKey : List (String × Nat) → Option String
  | [] => none
  | p :: rest => some (maxKeyAux p rest)

/-- Specification-side recursive description of the same maximum: the first
element of the list attaining the maximal count. -/
def firstMax : List (String × Nat) → Option (String × Nat)
  | [] => none
  | p :: rest =>
    match firstMax rest with
    | none => some p
    | some q => if q.2 > p.2 then some q else some p

/-- Exact nonnegative rational `num / den`, the value of a CPython float
argument (unreduced; `den` positive at every use site). -/
structure Frac where
  num : Nat
  den : Nat
deriving DecidableEq

/-- Two-digit zero padding for the fractional part. -/
def pad2 (n : Nat) : String := if n < 10 then "0" ++ toString n else toString n

/-- `f"{n/d:.2f}"` for a nonnegative exact rational `n / d`: round
half-to-even at two decimals and render. -/
def fixed2 (n d : Nat) : String :=
  let q := n * 100
  let w := q / d
  let r := q % d
  let c := if 2 * r < d then w
           else if d < 2 * r then w + 1
           else if w % 2 = 0 then w else w + 1
  toString (c / 100) ++ "." ++ pad2 (c % 100)

/-- `fmt_size`: gibibyte threshold, two decimals, binary units. -/
def fmt_size (x : Frac) : String :=
  if x.num ≥ 1073741824 * x.den then fixed2 x.num (x.den * 1073741824) ++ " GB"
  else fixed2 x.num (x.den * 1048576) ++ " MB"

/-- `fmt_params`: billion threshold (`1e9` is exact in binary), two
decimals. -/
def fmt_params (p : Nat) : String :=
  if p ≥ 1000000000 then fixed2 p 1000000000 ++ "B"
  else fixed2 p 1000000 ++ "M"

/-- ASCII whitespace stripped by `str.strip()`. -/
def py_isspace (c : Char) : Bool :=
  c = ' ' ∨ c = '\t' ∨ c = '\n' ∨ c = '\r' ∨ c = '\x0b' ∨ c = '\x0c'

/-- `model_id.strip()`. -/
def pyStrip (s : String) : String :=
  ⟨((s.toList.dropWhile py_isspace).reverse.dropWhile py_isspace).reverse⟩

/-- The denylisted characters of the sanitisation check. -/
def DENYLIST : List Char := ['<', '>', '"', '\'', ';', '&', '|']

/-- `s.endswith(t)`. -/
def py_endswith (s t : String) : Bool := t.toList.isSuffixOf s.toList

/-- URL of the file-tree listing endpoint. -/
def api_url (model_id revision : String) : String :=
  "https://huggingface.co/api/models/" ++ model_id ++ "/tree/" ++ revision

/-- URL resolving one repository file at a revision. -/
def resolve_url (model_id revision path : String) : String :=
  "https://huggingface.co/" ++ model_id ++ "/resolve/" ++ revision ++ "/" ++ path

/-- Body of the per-tensor loop: skip the reserved `__metadata__` key,
default a missing dtype to `"F32"` and a missing shape to `[]`, multiply
out the shape, and accumulate `(total_params, total_bytes, dtype_counts)`. -/
def tensorStep (acc : Nat × Nat × List (String × Nat)) (kv : String × TensorInfo) :
    Nat × Nat × List (String × Nat) :=
  if kv.1 = "__metadata__" then acc
  else
    let dtype := kv.2.dtype.getD "F32"
    let shape := kv.2.shape.getD []
    let params := shape.foldl (· * ·) 1
    let byte_size := dtypeSize dtype
    (acc.1 + params, acc.2.1 + params * byte_size, addCount acc.2.2 dtype params)

/-- Body of the per-file loop: fetch the header and, when available, fold
the tensor records into the accumulator (a `None` or empty header is
skipped by `if not meta: continue`, which leaves the accumulator
unchanged either way). -/
def fileStep (client : Req → Except Fault Resp) (parseMeta : List Nat → Option Meta)
    (model_id revision : String) (acc : Nat × Nat × List (String × Nat))
    (sf : FileEntry) : Nat × Nat × List (String × Nat) :=
  match (get_safetensor_metadata client parseMeta (resolve_url model_id revision sf.path)).1 with
  | none => acc
  | some meta => meta.foldl tensorStep acc

/-- The aggregation loop over the candidate weight files. -/
def aggregate (client : Req → Except Fault Resp) (parseMeta : List Nat → Option Meta)
    (model_id revision : String) (files : List FileEntry) :
    Nat × Nat × List (String × Nat) :=
  files.foldl (fileStep client parseMeta model_id revision) (0, 0, [])

/-- Shard-index resolution (lines 74-82): if some listed path ends with
`model.safetensors.index.json`, fetch the first such file; on a 200
response replace the candidate set by the listing entries whose path is
among the deduplicated `weight_map` values; on any other status keep the
incoming candidates; a transport fault or malformed JSON propagates to the
enclosing handler. -/
def resolve_shards (client : Req → Except Fault Resp) (parseIdx : List Nat → Option IdxData)
    (model_id revision : String) (files safetensor_files : List FileEntry) :
    Except Fault (List FileEntry) :=
  match files.filter (fun f => py_endswith f.path "model.safetensors.index.json") with
  | [] => .ok safetensor_files
  | idx :: _ =>
    match client (.plain (resolve_url model_id revision idx.path)) with
    | .error e => .error e
    | .ok r =>
      if r.status = 200 then
        match parseIdx r.content with
        | none => .error (.other "Expecting value")
        | some d =>
          let shard_files := ((d.weight_map.getD []).map Prod.snd).dedup
          .ok (files.filter (fun f => shard_files.contains f.path))
      else .ok safetensor_files

/-- The `try` block of `estimate_memory` after validation: list the file
tree, filter `.safetensors` paths, resolve shards, aggregate, and build the
report; `.error` carries an escaped exception. -/
def run_estimate (client : Req → Except Fault Resp)
    (parseFiles : List Nat → Option (List FileEntry))
    (parseIdx : List Nat → Option IdxData)
    (parseMeta : List Nat → Option Meta)
    (model_id revision : String) : Except Fault EstimateResult :=
  match client (.plain (api_url model_id revision)) with
  | .error e => .error e
  | .ok resp =>
    if resp.status ≠ 200 then
      .ok (.error ("Model not found or inaccessible: " ++ model_id))
    else
      match parseFiles resp.content with
      | none => .error (.other "Expecting value")
      | some files =>
        let safetensor_files := files.filter (fun f => py_endswith f.path ".safetensors")
        if safetensor_files = [] then .ok (.error "No safetensors files found in model")
        else
          match resolve_shards client parseIdx model_id revision files safetensor_files with
          | .error e => .error e
          | .ok resolved =>
            let agg := aggregate client parseMeta model_id revision resolved
            if agg.1 = 0 then .ok (.error "Could not parse model metadata")
            else
              match maxKey agg.2.2 with
              | none => .error (.other "max() arg is an empty sequence")
              | some dom =>
                .ok (.ok {
                  model := model_id
                  total_parameters := fmt_params agg.1
                  memory_required := fmt_size ⟨agg.2.1, 1⟩
                  current_dtype := dom
                  recommended_vram := fmt_size ⟨agg.2.1 * 6, 5⟩
                  fp32 := fmt_size ⟨agg.1 * 4, 1⟩
                  fp16 := fmt_size ⟨agg.1 * 2, 1⟩
                  int8 := fmt_size ⟨agg.1 * 1, 1⟩
                  int4 := fmt_size ⟨agg.1, 2⟩
                  overhead_note := "Includes 20% for activations/KV cache (2K context)" })

/-- `estimate_memory`: validate and sanitise the model id, run the
estimation pipeline, and convert escaped exceptions into structured error
payloads. -/
def estimate_memory (client : Req → Except Fault Resp)
    (parseFiles : List Nat → Option (List FileEntry))
    (parseIdx : List Nat → Option IdxData)
    (parseMeta : List Nat → Option Meta)
    (model_id : String) (revision : String := "main") : EstimateResult :=
  if model_id = "" ∨ model_id.toList.contains '/' = false then
    .error "Invalid model ID. Expected format: owner/model-name"
  else
    let mid := pyStrip model_id
    if DENYLIST.any (fun c => mid.toList.contains c) then
      .error "Invalid characters in model ID"
    else
      match run_estimate client parseFiles parseIdx parseMeta mid revision with
      | .ok r => r
      | .error .timeout => .error "Request to HuggingFace timed out. Try again."
      | .error (.other m) => .error ("Failed to fetch model info: " ++ m)

/-! ### Helper functions for totals and proofs -/

/-- Parameter contribution of one tensor record. -/
def recP (kv : String × TensorInfo) : Nat :=
  if kv.1 = "__metadata__" then 0 else (kv.2.shape.getD []).foldl (· * ·) 1

/-- Byte contribution of one tensor record. -/
def recB (kv : String × TensorInfo) : Nat :=
  if kv.1 = "__metadata__" then 0
  else (kv.2.shape.getD []).foldl (· * ·) 1 * dtypeSize (kv.2.dtype.getD "F32")

/-- Parameter contribution of one file. -/
def fileP (client : Req → Except Fault Resp) (parseMeta : List Nat → Option Meta)
    (model_id revision : String) (sf : FileEntry) : Nat :=
  match (get_safetensor_metadata client parseMeta (resolve_url model_id revision sf.path)).1 with
  | none => 0
  | some meta => (meta.map recP).sum

/-- Byte contribution of one file. -/
def fileB (client : Req → Except Fault Resp) (parseMeta : List Nat → Option Meta)
    (model_id revision : String) (sf : FileEntry) : Nat :=
  match (get_safetensor_metadata client parseMeta (resolve_url model_id revision sf.path)).1 with
  | none => 0
  | some meta => (meta.map recB).sum

theorem tensorStep_fst (acc : Nat × Nat × List (String × Nat)) (kv : String × TensorInfo) :
    (tensorStep acc kv).1 = acc.1 + recP kv := by
  unfold tensorStep recP
  by_cases h : kv.1 = "__metadata__" <;> simp [h]

theorem tensorStep_snd_fst (acc : Nat × Nat × List (String × Nat)) (kv : String × TensorInfo) :
    (tensorStep acc kv).2.1 = acc.2.1 + recB kv := by
  unfold tensorStep recB
  by_cases h : kv.1 = "__metadata__" <;> simp [h]

theorem foldl_tensorStep_fst (m : Meta) :
    ∀ acc : Nat × Nat × List (String × Nat),
      (m.foldl tensorStep acc).1 = acc.1 + (m.map recP).sum := by
  induction m with
  | nil => intro acc; simp
  | cons kv rest ih =>
    intro acc
    simp only [List.foldl_cons, List.map_cons, List.sum_cons]
    rw [ih, tensorStep_fst]
    omega

theorem foldl_tensorStep_snd_fst (m : Meta) :
    ∀ acc : Nat × Nat × List (String × Nat),
      (m.foldl tensorStep acc).2.1 = acc.2.1 + (m.map recB).sum := by
  induction m with
  | nil => intro acc; simp
  | cons kv rest ih =>
    intro acc
    simp only [List.foldl_cons, List.map_cons, List.sum_cons]
    rw [ih, tensorStep_snd_fst]
    omega

theorem fileStep_fst (client : Req → Except Fault Resp) (parseMeta : List Nat → Option Meta)
    (model_id revision : String) (acc : Nat × Nat × List (String × Nat)) (sf : FileEntry) :
    (fileStep client parseMeta model_id revision acc sf).1 =
      acc.1 + fileP client parseMeta model_id revision sf := by
  unfold fileStep fileP
  cases (get_safetensor_metadata client parseMeta (resolve_url model_id revision sf.path)).1 with
  | none => simp
  | some meta => simp [foldl_tensorStep_fst]

theorem fileStep_snd_fst (client : Req → Except Fault Resp) (parseMeta : List Nat → Option Meta)
    (model_id revision : String) (acc : Nat × Nat × List (String × Nat)) (sf : FileEntry) :
    (fileStep client parseMeta model_id revision acc sf).2.1 =
      acc.2.1 + fileB client parseMeta model_id revision sf := by
  unfold fileStep fileB
  cases (get_safetensor_metadata client parseMeta (resolve_url model_id revision sf.path)).1 with
  | none => simp
  | some meta => simp [foldl_tensorStep_snd_fst]

theorem foldl_fileStep_fst (client : Req → Except Fault Resp) (parseMeta : List Nat → Option Meta)
    (model_id revision : String) (l : List FileEntry) :
    ∀ acc : Nat × Nat × List (String × Nat),
      (l.foldl (fileStep client parseMeta model_id revision) acc).1 =
        acc.1 + (l.map (fileP client parseMeta model_id revision)).sum := by
  induction l with
  | nil => intro acc; simp
  | cons sf rest ih =>
    intro acc
    simp only [List.foldl_cons, List.map_cons, List.sum_cons]
    rw [ih, fileStep_fst]
    omega

theorem foldl_fileStep_snd_fst (client : Req → Except Fault Resp)
    (parseMeta : List Nat → Option Meta) (model_id revision : String) (l : List FileEntry) :
    ∀ acc : Nat × Nat × List (String × Nat),
      (l.foldl (fileStep client parseMeta model_id revision) acc).2.1 =
        acc.2.1 + (l.map (fileB client parseMeta model_id revision)).sum := by
  induction l with
  | nil => intro acc; simp
  | cons sf rest ih =>
    intro acc
    simp only [List.foldl_cons, List.map_cons, List.sum_cons]
    rw [ih, fileStep_snd_fst]
    omega

theorem aggregate_fst (client : Req → Except Fault Resp) (parseMeta : List Nat → Option Meta)
    (model_id revision : String) (l : List FileEntry) :
    (aggregate client parseMeta model_id revision l).1 =
      (l.map (fileP client parseMeta model_id revision)).sum := by
  unfold aggregate
  rw [foldl_fileStep_fst]
  simp

theorem aggregate_snd_fst (client : Req → Except Fault Resp) (parseMeta : List Nat → Option Meta)
    (model_id revision : String) (l : List FileEntry) :
    (aggregate client parseMeta model_id revision l).2.1 =
      (l.map (fileB client parseMeta model_id revision)).sum := by
  unfold aggregate
  rw [foldl_fileStep_snd_fst]
  simp



theorem firstMax_cons_none {a : String × Nat} {t : List (String × Nat)}
    (h : firstMax t = none) : firstMax (a :: t) = some a := by
  simp [firstMax, h]

theorem firstMax_cons_some {a q : String × Nat} {t : List (String × Nat)}
    (h : firstMax t = some q) :
    firstMax (a :: t) = if q.2 > a.2 then some q else some a := by
  simp [firstMax, h]

theorem firstMax_eq_none {t : List (String × Nat)} (h : firstMax t = none) :
    t = [] := by
  cases t with
  | nil => rfl
  | cons a r =>
    cases hq : firstMax r with
    | none => rw [firstMax_cons_none hq] at h; cases h
    | some q =>
      rw [firstMax_cons_some hq] at h
      by_cases hgt : q.2 > a.2 <;> simp [hgt] at h

theorem maxKeyAux_eq_firstMax (t : List (String × Nat)) :
    ∀ b : String × Nat,
      maxKeyAux b t = (match firstMax t with
                       | none => b.1
                       | some q => if q.2 > b.2 then q.1 else b.1) := by
  induction t with
  | nil => intro b; simp [maxKeyAux, firstMax]
  | cons h t ih =>
    intro b
    rw [maxKeyAux]
    cases hq : firstMax t with
    | none =>
      have ht : t = [] := firstMax_eq_none hq
      subst ht
      by_cases hb : h.2 > b.2 <;> simp [maxKeyAux, firstMax, hb]
    | some q =>
      rw [firstMax_cons_some hq]
      by_cases hqh : q.2 > h.2
      · rw [if_pos hqh]
        by_cases hb : h.2 > b.2
        · rw [if_pos hb, ih h, hq]
          have hqb : q.2 > b.2 := by omega
          simp [hqh, hqb]
        · rw [if_neg hb, ih b, hq]
      · rw [if_neg hqh]
        by_cases hb : h.2 > b.2
        · rw [if_pos hb, ih h, hq]
          simp [hqh, hb]
        · rw [if_neg hb, ih b, hq]
          have hqb : ¬ q.2 > b.2 := by omega
          simp [hqb, hb]

theorem maxKey_eq_firstMax (l : List (String × Nat)) :
    maxKey l = (firstMax l).map Prod.fst := by
  cases l with
  | nil => simp [maxKey, firstMax]
  | cons p rest =>
    rw [maxKey, maxKeyAux_eq_firstMax]
    cases hq : firstMax rest with
    | none =>
      have := firstMax_eq_none hq
      subst this
      simp [firstMax, maxKeyAux]
    | some q =>
      rw [firstMax_cons_some hq]
      by_cases hgt : q.2 > p.2 <;> simp [hgt]

theorem firstMax_mem {l : List (String × Nat)} {p : String × Nat}
    (h : firstMax l = some p) : p ∈ l := by
  induction l generalizing p with
  | nil => cases h
  | cons a t ih =>
    cases hq : firstMax t with
    | none =>
      rw [firstMax_cons_none hq] at h
      have := Option.some.inj h
      subst this
      exact List.mem_cons_self _ _
    | some q =>
      rw [firstMax_cons_some hq] at h
      by_cases hgt : q.2 > a.2
      · rw [if_pos hgt] at h
        have := Option.some.inj h
        subst this
        exact List.mem_cons_of_mem _ (ih hq)
      · rw [if_neg hgt] at h
        have := Option.some.inj h
        subst this
        exact List.mem_cons_self _ _

theorem firstMax_ge {l : List (String × Nat)} {p : String × Nat}
    (h : firstMax l = some p) : ∀ q ∈ l, q.2 ≤ p.2 := by
  induction l generalizing p with
  | nil => cases h
  | cons a t ih =>
    cases hq : firstMax t with
    | none =>
      have ht : t = [] := firstMax_eq_none hq
      subst ht
      simp [firstMax] at h
      subst h
      intro q hqm
      rcases List.mem_cons.mp hqm with h1 | h1
      · subst h1; exact le_refl _
      · cases h1
    | some m =>
      rw [firstMax_cons_some hq] at h
      by_cases hgt : m.2 > a.2
      · rw [if_pos hgt] at h
        have := Option.some.inj h
        subst this
        intro q hqm
        rcases List.mem_cons.mp hqm with h1 | h1
        · subst h1; omega
        · exact ih hq q h1
      · rw [if_neg hgt] at h
        have := Option.some.inj h
        subst this
        intro q hqm
        rcases List.mem_cons.mp hqm with h1 | h1
        · subst h1; exact le_refl _
        · have := ih hq q h1
          omega

theorem firstMax_first {l : List (String × Nat)} {p : String × Nat}
    (h : firstMax l = some p) :
    l.find? (fun q => decide (p.2 ≤ q.2)) = some p := by
  induction l generalizing p with
  | nil => cases h
  | cons a t ih =>
    cases hq : firstMax t with
    | none =>
      rw [firstMax_cons_none hq] at h
      have := Option.some.inj h
      subst this
      simp [List.find?]
    | some m =>
      rw [firstMax_cons_some hq] at h
      by_cases hgt : m.2 > a.2
      · rw [if_pos hgt] at h
        have := Option.some.inj h
        subst this
        rw [List.find?]
        have hda : (decide (m.2 ≤ a.2)) = false := by
          simp only [decide_eq_false_iff_not]
          omega
        rw [hda]
        exact ih hq
      · rw [if_neg hgt] at h
        have := Option.some.inj h
        subst this
        rw [List.find?]
        simp

theorem addCount_keys (l : List (String × Nat)) (d : String) (p : Nat) :
    (addCount l d p).map Prod.fst =
      if d ∈ l.map Prod.fst then l.map Prod.fst else l.map Prod.fst ++ [d] := by
  induction l with
  | nil => simp [addCount]
  | cons kv rest ih =>
    rw [addCount.eq_def]
    by_cases h : kv.1 = d
    · simp only [h, if_true, ite_true]
      simp [← h]
    · simp only [h, if_false, ite_false]
      simp only [List.map_cons, ih]
      have hne : ¬ d = kv.1 := fun he => h he.symm
      by_cases hm : d ∈ rest.map Prod.fst <;> simp [hm, List.mem_cons, hne]

theorem mem_dropWhile_of_neg {c : Char} {pr : Char → Bool} (hc : pr c = false) :
    ∀ {l : List Char}, c ∈ l → c ∈ l.dropWhile pr := by
  intro l
  induction l with
  | nil => intro h; cases h
  | cons a t ih =>
    intro h
    rw [List.dropWhile]
    cases ha : pr a with
    | false => simpa using h
    | true =>
      rcases List.mem_cons.mp h with h1 | h1
      · subst h1; rw [hc] at ha; cases ha
      · exact ih h1

theorem mem_pyStrip {c : Char} (hc : py_isspace c = false) {s : String}
    (h : c ∈ s.toList) : c ∈ (pyStrip s).toList := by
  unfold pyStrip
  show c ∈ ((s.toList.dropWhile py_isspace).reverse.dropWhile py_isspace).reverse
  rw [List.mem_reverse]
  apply mem_dropWhile_of_neg hc
  rw [List.mem_reverse]
  exact mem_dropWhile_of_neg hc h

theorem run_estimate_ok (client : Req → Except Fault Resp)
    (parseFiles : List Nat → Option (List FileEntry))
    (parseIdx : List Nat → Option IdxData)
    (parseMeta : List Nat → Option Meta)
    (model_id revision : String) (r : Report)
    (h : run_estimate client parseFiles parseIdx parseMeta model_id revision = .ok (.ok r)) :
    ∃ resp files resolved,
      client (.plain (api_url model_id revision)) = .ok resp ∧
      resp.status = 200 ∧
      parseFiles resp.content = some files ∧
      files.filter (fun f => py_endswith f.path ".safetensors") ≠ [] ∧
      resolve_shards client parseIdx model_id revision files
        (files.filter (fun f => py_endswith f.path ".safetensors")) = .ok resolved ∧
      (aggregate client parseMeta model_id revision resolved).1 ≠ 0 ∧
      maxKey (aggregate client parseMeta model_id revision resolved).2.2 = some r.current_dtype ∧
      r = { model := model_id
            total_parameters := fmt_params (aggregate client parseMeta model_id revision resolved).1
            memory_required := fmt_size ⟨(aggregate client parseMeta model_id revision resolved).2.1, 1⟩
            current_dtype := r.current_dtype
            recommended_vram := fmt_size ⟨(aggregate client parseMeta model_id revision resolved).2.1 * 6, 5⟩
            fp32 := fmt_size ⟨(aggregate client parseMeta model_id revision resolved).1 * 4, 1⟩
            fp16 := fmt_size ⟨(aggregate client parseMeta model_id revision resolved).1 * 2, 1⟩
            int8 := fmt_size ⟨(aggregate client parseMeta model_id revision resolved).1 * 1, 1⟩
            int4 := fmt_size ⟨(aggregate client parseMeta model_id revision resolved).1, 2⟩
            overhead_note := "Includes 20% for activations/KV cache (2K context)" } := by
  unfold run_estimate at h
  dsimp only at h
  split at h
  · cases h
  next resp heq =>
    split at h
    · cases h
    next h200 =>
      split at h
      · cases h
      next files hpf =>
        split at h
        · cases h
        next hne =>
          split at h
          · cases h
          next resolved hres =>
            split at h
            · cases h
            next hagg =>
              split at h
              · cases h
              next dom hmax =>
                injection h with h1
                injection h1 with h2
                subst h2
                exact ⟨resp, files, resolved, heq, not_not.mp h200, hpf, hne, hres,
                       hagg, hmax, rfl⟩

theorem estimate_memory_ok (client : Req → Except Fault Resp)
    (parseFiles : List Nat → Option (List FileEntry))
    (parseIdx : List Nat → Option IdxData)
    (parseMeta : List Nat → Option Meta)
    (model_id revision : String) (r : Report)
    (h : estimate_memory client parseFiles parseIdx parseMeta model_id revision = .ok r) :
    ¬ (model_id = "" ∨ model_id.toList.contains '/' = false) ∧
    DENYLIST.any (fun c => (pyStrip model_id).toList.contains c) = false ∧
    run_estimate client parseFiles parseIdx parseMeta (pyStrip model_id) revision =
      .ok (.ok r) := by
  unfold estimate_memory at h
  dsimp only at h
  split at h
  · cases h
  next hv =>
    split at h
    · cases h
    next hd =>
      split at h
      next res hrun =>
        exact ⟨hv, by simpa using hd, by rw [hrun, h]⟩
      · cases h
      next m hrun => cases h

/-! ### Concrete test worlds -/

def demoTreeUrl : String := api_url "a/b" "main"

def demoFileUrl : String := resolve_url "a/b" "main" "m.safetensors"

def demoClient : Req → Except Fault Resp := fun req =>
  if req = .plain demoTreeUrl then .ok ⟨200, [0]⟩
  else if req = .range demoFileUrl 0 7 then .ok ⟨200, [9, 0, 0, 0, 0, 0, 0, 0]⟩
  else if req = .range demoFileUrl 8 16 then .ok ⟨200, [1]⟩
  else .error .timeout

def demoParseFiles : List Nat → Option (List FileEntry) := fun c =>
  if c = [0] then some [⟨"m.safetensors"⟩] else none

def demoParseIdx : List Nat → Option IdxData := fun _ => none

def demoParseMeta : List Nat → Option Meta := fun c =>
  if c = [1] then some [("t", ⟨some "F16", some [2, 3]⟩)] else none

def demoReport : Report :=
  { model := "a/b"
    total_parameters := fmt_params 6
    memory_required := fmt_size ⟨12, 1⟩
    current_dtype := "F16"
    recommended_vram := fmt_size ⟨12 * 6, 5⟩
    fp32 := fmt_size ⟨6 * 4, 1⟩
    fp16 := fmt_size ⟨6 * 2, 1⟩
    int8 := fmt_size ⟨6 * 1, 1⟩
    int4 := fmt_size ⟨6, 2⟩
    overhead_note := "Includes 20% for activations/KV cache (2K context)" }

/-- C1: the header extractor issues a first range request for bytes
`[0, 8)` (`bytes=0-7`); when that response is OK (status 200 or 206) and
its body decodes as an 8-byte little-endian integer `n`, the second and
final request covers bytes `[8, 8+n)` (`bytes=8-(8+n-1)`); and the result
is a header exactly when the whole chain succeeds — any transport fault,
non-200/206 status, bad length prefix or unparseable JSON yields `none`
(NotAvailable) instead of propagating. -/
theorem C1_header_extractor_protocol (client : Req → Except Fault Resp)
    (parseMeta : List Nat → Option Meta) (url : String) :
    ((get_safetensor_metadata client parseMeta url).2.head? = some (.range url 0 7)) ∧
    (∀ r1 n, client (.range url 0 7) = .ok r1 → (r1.status = 200 ∨ r1.status = 206) →
      decode_le64 r1.content = some n →
      (get_safetensor_metadata client parseMeta url).2 =
        [.range url 0 7, .range url 8 (8 + n - 1)]) ∧
    (∀ m, (get_safetensor_metadata client parseMeta url).1 = some m ↔
      ∃ r1 n r2, client (.range url 0 7) = .ok r1 ∧ (r1.status = 200 ∨ r1.status = 206) ∧
        decode_le64 r1.content = some n ∧
        client (.range url 8 (8 + n - 1)) = .ok r2 ∧ (r2.status = 200 ∨ r2.status = 206) ∧
        parseMeta r2.content = some m) := by
  unfold get_safetensor_metadata
  cases hc : client (.range url 0 7) with
  | error e => simp [hc]
  | ok r1 =>
    dsimp only
    by_cases hs : r1.status = 200 ∨ r1.status = 206
    · rw [if_pos hs]
      cases hd : decode_le64 r1.content with
      | none =>
        simp [hc, hd, hs]
        intro r1' n h1 h2
        subst h1
        simp [hd]
      | some n =>
        dsimp only
        rw [show 8 + n - 1 = 7 + n from by omega]
        cases hc2 : client (.range url 8 (7 + n)) with
        | error e =>
          simp [hc, hd, hs, hc2]
          intro r1' n' h1 h2 h3
          subst h1
          rw [hd] at h3
          exact Option.some.inj h3
        | ok r2 =>
          dsimp only
          by_cases hs2 : r2.status = 200 ∨ r2.status = 206
          · rw [if_pos hs2]
            simp [hc, hd, hs, hc2, hs2]
            intro r1' n' h1 h2 h3
            subst h1
            rw [hd] at h3
            exact Option.some.inj h3
          · rw [if_neg hs2]
            simp [hc, hd, hs, hc2, hs2]
            intro r1' n' h1 h2 h3
            subst h1
            rw [hd] at h3
            exact Option.some.inj h3
    · rw [if_neg hs]
      simp [hc, hs]
      intro r1' n h1 h2
      subst h1
      exact absurd h2 hs

theorem C1_witness :
    (get_safetensor_metadata demoClient demoParseMeta demoFileUrl).2 =
      [.range demoFileUrl 0 7, .range demoFileUrl 8 16] :=
  (C1_header_extractor_protocol demoClient demoParseMeta demoFileUrl).2.1
    ⟨200, [9, 0, 0, 0, 0, 0, 0, 0]⟩ 9 (by decide) (by decide) (by decide)

/-- C2: for every tensor record other than the reserved `__metadata__` key,
the accumulated element count grows by the product of the shape dimensions
(`List.prod`, with the empty shape contributing 1), and the byte total
grows by that element count times `bytes_per_element(dtype)` as given by
the `DTYPE_SIZES` table (F32 → 4, BF16 → 2, F16 → 2, I8 → 1, F64 → 8, …),
with every dtype code outside the table mapping to 4. -/
theorem C2_element_count_and_bytes (acc : Nat × Nat × List (String × Nat))
    (key : String) (ti : TensorInfo) (hk : key ≠ "__metadata__") :
    tensorStep acc (key, ti) =
      (acc.1 + (ti.shape.getD []).prod,
       acc.2.1 + (ti.shape.getD []).prod * dtypeSize (ti.dtype.getD "F32"),
       addCount acc.2.2 (ti.dtype.getD "F32") (ti.shape.getD []).prod) ∧
    ([] : List Nat).prod = 1 ∧
    dtypeSize "F32" = 4 ∧ dtypeSize "BF16" = 2 ∧ dtypeSize "F16" = 2 ∧
    dtypeSize "I8" = 1 ∧ dtypeSize "F64" = 8 ∧
    (∀ d, d ∉ DTYPE_SIZES.map Prod.fst → dtypeSize d = 4) := by
  refine ⟨?_, by decide, by decide, by decide, by decide, by decide, by decide, ?_⟩
  · unfold tensorStep
    rw [if_neg hk]
    rw [List.prod_eq_foldl]
  · intro d hd
    unfold dtypeSize
    rw [List.lookup_eq_none_iff.mpr ?_]
    · rfl
    · simp only [List.mem_map, not_exists, not_and] at hd
      intro a ha
      simp only [bne_iff_ne, ne_eq]
      exact fun hda => hd a ha hda.symm

theorem C2_witness :
    tensorStep (0, 0, []) ("w", ⟨some "BF16", some [3, 4]⟩) =
      ((0 : Nat) + ([3, 4] : List Nat).prod,
       (0 : Nat) + ([3, 4] : List Nat).prod * dtypeSize "BF16",
       addCount [] "BF16" ([3, 4] : List Nat).prod) :=
  (C2_element_count_and_bytes (0, 0, []) "w" ⟨some "BF16", some [3, 4]⟩ (by decide)).1

/-- C10: a tensor record (other than the reserved metadata key) whose
`dtype` field is missing is treated as `F32` (4 bytes per element) and
whose `shape` field is missing is treated as the empty shape, so it
contributes exactly 1 parameter, 4 bytes, and one `F32`-keyed count,
rather than erroring or being skipped. -/
theorem C10_missing_fields_defaults (acc : Nat × Nat × List (String × Nat))
    (key : String) (ti : TensorInfo) (hk : key ≠ "__metadata__")
    (hd : ti.dtype = none) (hs : ti.shape = none) :
    tensorStep acc (key, ti) = (acc.1 + 1, acc.2.1 + 4, addCount acc.2.2 "F32" 1) := by
  unfold tensorStep
  rw [if_neg hk, hd, hs]
  rfl

theorem C10_witness :
    tensorStep (5, 7, [("F16", 5)]) ("x", ⟨none, none⟩) =
      (5 + 1, 7 + 4, addCount [("F16", 5)] "F32" 1) :=
  C10_missing_fields_defaults (5, 7, [("F16", 5)]) "x" ⟨none, none⟩
    (by decide) rfl rfl

/-- C5: every model id that is empty, lacks the `/` separator, or contains
a denylisted character (`<`, `>`, `"`, `'`, `;`, `&`, `|`) is rejected with
an invalid-identifier error, and the result is computed without consulting
the transport or the parsers — no outbound request is made. -/
theorem C5_validation_rejects (client : Req → Except Fault Resp)
    (parseFiles : List Nat → Option (List FileEntry))
    (parseIdx : List Nat → Option IdxData)
    (parseMeta : List Nat → Option Meta)
    (model_id revision : String)
    (h : model_id = "" ∨ model_id.toList.contains '/' = false ∨
         ∃ c ∈ DENYLIST, c ∈ model_id.toList) :
    (estimate_memory client parseFiles parseIdx parseMeta model_id revision =
        .error "Invalid model ID. Expected format: owner/model-name" ∨
     estimate_memory client parseFiles parseIdx parseMeta model_id revision =
        .error "Invalid characters in model ID") ∧
    (∀ (client2 : Req → Except Fault Resp)
       (parseFiles2 : List Nat → Option (List FileEntry))
       (parseIdx2 : List Nat → Option IdxData)
       (parseMeta2 : List Nat → Option Meta),
      estimate_memory client parseFiles parseIdx parseMeta model_id revision =
        estimate_memory client2 parseFiles2 parseIdx2 parseMeta2 model_id revision) := by
  by_cases hv : model_id = "" ∨ model_id.toList.contains '/' = false
  · constructor
    · left
      unfold estimate_memory
      rw [if_pos hv]
    · intro client2 pf2 pi2 pm2
      unfold estimate_memory
      rw [if_pos hv, if_pos hv]
  · have hden : ∃ c ∈ DENYLIST, c ∈ model_id.toList := by
      rcases h with h1 | h1 | h1
      · exact absurd (Or.inl h1) hv
      · exact absurd (Or.inr h1) hv
      · exact h1
    obtain ⟨c, hcd, hcm⟩ := hden
    have hcw : py_isspace c = false := by
      fin_cases hcd <;> decide
    have hcs : c ∈ (pyStrip model_id).toList := mem_pyStrip hcw hcm
    have hany : DENYLIST.any (fun ch => (pyStrip model_id).toList.contains ch) = true := by
      rw [List.any_eq_true]
      exact ⟨c, hcd, List.elem_iff.mpr hcs⟩
    constructor
    · right
      unfold estimate_memory
      rw [if_neg hv]
      dsimp only
      rw [if_pos hany]
    · intro client2 pf2 pi2 pm2
      unfold estimate_memory
      rw [if_neg hv, if_neg hv]
      dsimp only
      rw [if_pos hany, if_pos hany]

theorem C5_witness :
    estimate_memory demoClient demoParseFiles demoParseIdx demoParseMeta "a/b;x" "main" =
        .error "Invalid model ID. Expected format: owner/model-name" ∨
    estimate_memory demoClient demoParseFiles demoParseIdx demoParseMeta "a/b;x" "main" =
        .error "Invalid characters in model ID" :=
  (C5_validation_rejects demoClient demoParseFiles demoParseIdx demoParseMeta "a/b;x" "main"
    (Or.inr (Or.inr ⟨';', by decide, by decide⟩))).1

/-- C6: the parameter formatter renders counts at or above one billion as
billions with two decimals and a `B` suffix and counts below as millions
with two decimals and an `M` suffix; the size formatter renders values at
or above one gibibyte (1024³) as `GB` with two decimals and below as `MB`
with two decimals, 1024-based; concretely 1,500,000,000 parameters formats
as `1.50B` and 900,000,000 bytes as `858.31 MB`. -/
theorem C6_formatting (p : Nat) (x : Frac) :
    (p ≥ 1000000000 → fmt_params p = fixed2 p 1000000000 ++ "B") ∧
    (p < 1000000000 → fmt_params p = fixed2 p 1000000 ++ "M") ∧
    (x.num ≥ 1073741824 * x.den →
      fmt_size x = fixed2 x.num (x.den * 1073741824) ++ " GB") ∧
    (x.num < 1073741824 * x.den →
      fmt_size x = fixed2 x.num (x.den * 1048576) ++ " MB") ∧
    fmt_params 1500000000 = "1.50B" ∧
    fmt_size ⟨900000000, 1⟩ = "858.31 MB" := by
  refine ⟨?_, ?_, ?_, ?_, by decide, by decide⟩
  · intro h
    unfold fmt_params
    rw [if_pos h]
  · intro h
    unfold fmt_params
    rw [if_neg (by omega)]
  · intro h
    unfold fmt_size
    rw [if_pos h]
  · intro h
    unfold fmt_size
    rw [if_neg (by omega)]

theorem C6_witness :
    fmt_params 2000000000 = fixed2 2000000000 1000000000 ++ "B" ∧
    fmt_params 5 = fixed2 5 1000000 ++ "M" ∧
    fmt_size ⟨2147483648, 1⟩ = fixed2 2147483648 (1 * 1073741824) ++ " GB" ∧
    fmt_size ⟨3, 1⟩ = fixed2 3 (1 * 1048576) ++ " MB" :=
  ⟨(C6_formatting 2000000000 ⟨0, 1⟩).1 (by decide),
   (C6_formatting 5 ⟨0, 1⟩).2.1 (by decide),
   (C6_formatting 0 ⟨2147483648, 1⟩).2.2.1 (by decide),
   (C6_formatting 0 ⟨3, 1⟩).2.2.2.1 (by decide)⟩

/-- C8: aggregation is order-independent — permuting the list of candidate
files leaves `total_params` and `total_bytes` unchanged, and permuting the
tensor records of a header leaves the parameter and byte totals of the
per-file fold unchanged. -/
theorem C8_aggregation_order_independent (client : Req → Except Fault Resp)
    (parseMeta : List Nat → Option Meta) (model_id revision : String)
    (l1 l2 : List FileEntry) (m1 m2 : Meta)
    (hl : l1.Perm l2) (hm : m1.Perm m2) :
    (aggregate client parseMeta model_id revision l1).1 =
      (aggregate client parseMeta model_id revision l2).1 ∧
    (aggregate client parseMeta model_id revision l1).2.1 =
      (aggregate client parseMeta model_id revision l2).2.1 ∧
    (∀ acc : Nat × Nat × List (String × Nat),
      (m1.foldl tensorStep acc).1 = (m2.foldl tensorStep acc).1 ∧
      (m1.foldl tensorStep acc).2.1 = (m2.foldl tensorStep acc).2.1) := by
  refine ⟨?_, ?_, ?_⟩
  · rw [aggregate_fst, aggregate_fst]
    exact (hl.map (fileP client parseMeta model_id revision)).sum_eq
  · rw [aggregate_snd_fst, aggregate_snd_fst]
    exact (hl.map (fileB client parseMeta model_id revision)).sum_eq
  · intro acc
    constructor
    · rw [foldl_tensorStep_fst, foldl_tensorStep_fst]
      rw [(hm.map recP).sum_eq]
    · rw [foldl_tensorStep_snd_fst, foldl_tensorStep_snd_fst]
      rw [(hm.map recB).sum_eq]

theorem C8_witness :
    (aggregate demoClient demoParseMeta "a/b" "main"
        [⟨"m.safetensors"⟩, ⟨"o.safetensors"⟩]).1 =
      (aggregate demoClient demoParseMeta "a/b" "main"
        [⟨"o.safetensors"⟩, ⟨"m.safetensors"⟩]).1 :=
  (C8_aggregation_order_independent demoClient demoParseMeta "a/b" "main"
    [⟨"m.safetensors"⟩, ⟨"o.safetensors"⟩] [⟨"o.safetensors"⟩, ⟨"m.safetensors"⟩]
    [] [] (List.Perm.swap _ _ _) (List.Perm.refl _)).1

/-- C7: every success report derives its four precision variants from the
aggregated total parameter count alone — fp32 as p×4 bytes, fp16 as p×2,
int8 as p×1, int4 as p×0.5 (the exact value p/2) — all formatted by the
same `fmt_size` rule as the native memory figure, independent of the
stored dtypes; concretely p = 7,000,000,000 gives an int4 figure of
`3.26 GB`. -/
theorem C7_precision_variants (client : Req → Except Fault Resp)
    (parseFiles : List Nat → Option (List FileEntry))
    (parseIdx : List Nat → Option IdxData)
    (parseMeta : List Nat → Option Meta)
    (model_id revision : String) (r : Report)
    (h : estimate_memory client parseFiles parseIdx parseMeta model_id revision = .ok r) :
    (∃ p b : Nat,
      r.total_parameters = fmt_params p ∧
      r.memory_required = fmt_size ⟨b, 1⟩ ∧
      r.fp32 = fmt_size ⟨p * 4, 1⟩ ∧
      r.fp16 = fmt_size ⟨p * 2, 1⟩ ∧
      r.int8 = fmt_size ⟨p * 1, 1⟩ ∧
      r.int4 = fmt_size ⟨p, 2⟩) ∧
    fmt_size ⟨7000000000, 2⟩ = "3.26 GB" := by
  obtain ⟨hv, hden, hrun⟩ :=
    estimate_memory_ok client parseFiles parseIdx parseMeta model_id revision r h
  obtain ⟨resp, files, resolved, hcl, h200, hpf, hne, hres, hagg, hmax, hrec⟩ :=
    run_estimate_ok client parseFiles parseIdx parseMeta (pyStrip model_id) revision r hrun
  refine ⟨⟨(aggregate client parseMeta (pyStrip model_id) revision resolved).1,
          (aggregate client parseMeta (pyStrip model_id) revision resolved).2.1,
          ?_, ?_, ?_, ?_, ?_, ?_⟩, by decide⟩ <;> rw [hrec]

theorem C7_witness :
    ((∃ p b : Nat,
      demoReport.total_parameters = fmt_params p ∧
      demoReport.memory_required = fmt_size ⟨b, 1⟩ ∧
      demoReport.fp32 = fmt_size ⟨p * 4, 1⟩ ∧
      demoReport.fp16 = fmt_size ⟨p * 2, 1⟩ ∧
      demoReport.int8 = fmt_size ⟨p * 1, 1⟩ ∧
      demoReport.int4 = fmt_size ⟨p, 2⟩) ∧
    fmt_size ⟨7000000000, 2⟩ = "3.26 GB") :=
  C7_precision_variants demoClient demoParseFiles demoParseIdx demoParseMeta
    "a/b" "main" demoReport (by decide)

/-- C9: in every success report the reported dominant dtype is a key of
the accumulated per-dtype parameter counts whose count is maximal, and on
ties the first entry of the accumulation wins (`find?` of the first entry
reaching the maximum); moreover `addCount` keeps keys in first-insertion
order, so that entry is the first-inserted among the tied keys. -/
theorem C9_dominant_dtype (client : Req → Except Fault Resp)
    (parseFiles : List Nat → Option (List FileEntry))
    (parseIdx : List Nat → Option IdxData)
    (parseMeta : List Nat → Option Meta)
    (model_id revision : String) (r : Report)
    (h : estimate_memory client parseFiles parseIdx parseMeta model_id revision = .ok r) :
    (∃ (resolved : List FileEntry × List FileEntry) (counts : List (String × Nat)) (v : Nat),
      resolve_shards client parseIdx (pyStrip model_id) revision resolved.1
        (resolved.1.filter (fun f => py_endswith f.path ".safetensors")) = .ok resolved.2 ∧
      counts = (aggregate client parseMeta (pyStrip model_id) revision resolved.2).2.2 ∧
      (∀ q ∈ counts, q.2 ≤ v) ∧
      counts.find? (fun q => decide (v ≤ q.2)) = some (r.current_dtype, v)) ∧
    (∀ (l : List (String × Nat)) (d : String) (p : Nat),
      (addCount l d p).map Prod.fst =
        if d ∈ l.map Prod.fst then l.map Prod.fst else l.map Prod.fst ++ [d]) := by
  obtain ⟨hv, hden, hrun⟩ :=
    estimate_memory_ok client parseFiles parseIdx parseMeta model_id revision r h
  obtain ⟨resp, files, resolved, hcl, h200, hpf, hne, hres, hagg, hmax, hrec⟩ :=
    run_estimate_ok client parseFiles parseIdx parseMeta (pyStrip model_id) revision r hrun
  refine ⟨?_, addCount_keys⟩
  rw [maxKey_eq_firstMax] at hmax
  cases hfm : firstMax (aggregate client parseMeta (pyStrip model_id) revision resolved).2.2 with
  | none => rw [hfm] at hmax; cases hmax
  | some pq =>
    rw [hfm] at hmax
    have hpq1 : pq.1 = r.current_dtype := Option.some.inj hmax
    refine ⟨(files, resolved), _, pq.2, hres, rfl, firstMax_ge hfm, ?_⟩
    have hfind := firstMax_first hfm
    have hpair : (r.current_dtype, pq.2) = pq := by
      cases pq
      simp only at hpq1
      rw [hpq1]
    rw [hpair]
    exact hfind

theorem C9_witness :
    ∃ (resolved : List FileEntry × List FileEntry) (counts : List (String × Nat)) (v : Nat),
      resolve_shards demoClient demoParseIdx (pyStrip "a/b") "main" resolved.1
        (resolved.1.filter (fun f => py_endswith f.path ".safetensors")) = .ok resolved.2 ∧
      counts = (aggregate demoClient demoParseMeta (pyStrip "a/b") "main" resolved.2).2.2 ∧
      (∀ q ∈ counts, q.2 ≤ v) ∧
      counts.find? (fun q => decide (v ≤ q.2)) = some (demoReport.current_dtype, v) :=
  (C9_dominant_dtype demoClient demoParseFiles demoParseIdx demoParseMeta
    "a/b" "main" demoReport (by decide)).1

/-! ### Worlds exhibiting the shard-resolution and error-ordering behaviour -/

def cex3Files : List FileEntry :=
  [⟨"a.safetensors"⟩, ⟨"b.safetensors"⟩, ⟨"x.safetensors.index.json"⟩]

def cex3IdxUrl : String := resolve_url "a/b" "main" "x.safetensors.index.json"

def cex3Client : Req → Except Fault Resp := fun req =>
  if req = .plain cex3IdxUrl then .ok ⟨200, [2]⟩ else .error .timeout

def cex3ParseIdx : List Nat → Option IdxData := fun c =>
  if c = [2] then some ⟨some [("t", "b.safetensors")]⟩ else none

/-- C3 counterexample: the listing contains `x.safetensors.index.json`,
whose path ends with the claimed index convention (weight-file extension
plus `.index.json`) and whose fetch would succeed with a weight_map naming
only `b.safetensors`; yet the code looks for the suffix
`model.safetensors.index.json`, never fetches this index, and keeps the
full `.safetensors` listing, so the aggregated set is not the weight_map
value set intersected with the listing (`a.safetensors` survives). -/
theorem C3_counterexample :
    (∃ f ∈ cex3Files, py_endswith f.path ".safetensors.index.json" = true) ∧
    cex3Client (.plain cex3IdxUrl) = .ok ⟨200, [2]⟩ ∧
    cex3ParseIdx [2] = some ⟨some [("t", "b.safetensors")]⟩ ∧
    resolve_shards cex3Client cex3ParseIdx "a/b" "main" cex3Files
      (cex3Files.filter (fun f => py_endswith f.path ".safetensors")) =
      .ok [⟨"a.safetensors"⟩, ⟨"b.safetensors"⟩] ∧
    ¬ ((∃ f ∈ [(⟨"a.safetensors"⟩ : FileEntry), ⟨"b.safetensors"⟩],
          f.path = "a.safetensors") ↔
       ("a.safetensors" ∈ cex3Files.map FileEntry.path ∧
        "a.safetensors" ∈ [("t", "b.safetensors")].map Prod.snd)) := by
  decide

/-- C3 (amended): the index-file convention actually implemented is the
suffix `model.safetensors.index.json`, and only the first matching entry
is fetched.  When no entry matches, the candidate set stays the full
`.safetensors`-suffixed listing; when the fetch of the first matching
entry returns status 200 and parses, the aggregated set is exactly the
deduplicated `weight_map` value set intersected with the paths of the
directory listing; when it returns any non-200 status, the aggregated set
falls back to the full `.safetensors`-suffixed listing with no error
raised. -/
theorem C3_shard_resolution (client : Req → Except Fault Resp)
    (parseIdx : List Nat → Option IdxData)
    (model_id revision : String) (files : List FileEntry) :
    (files.filter (fun f => py_endswith f.path "model.safetensors.index.json") = [] →
      resolve_shards client parseIdx model_id revision files
        (files.filter (fun f => py_endswith f.path ".safetensors")) =
        .ok (files.filter (fun f => py_endswith f.path ".safetensors"))) ∧
    (∀ i rest resp d,
      files.filter (fun f => py_endswith f.path "model.safetensors.index.json") = i :: rest →
      client (.plain (resolve_url model_id revision i.path)) = .ok resp →
      resp.status = 200 →
      parseIdx resp.content = some d →
      ∃ out, resolve_shards client parseIdx model_id revision files
          (files.filter (fun f => py_endswith f.path ".safetensors")) = .ok out ∧
        ∀ p : String, (∃ f ∈ out, f.path = p) ↔
          ((∃ f ∈ files, f.path = p) ∧ p ∈ (d.weight_map.getD []).map Prod.snd)) ∧
    (∀ i rest resp,
      files.filter (fun f => py_endswith f.path "model.safetensors.index.json") = i :: rest →
      client (.plain (resolve_url model_id revision i.path)) = .ok resp →
      resp.status ≠ 200 →
      resolve_shards client parseIdx model_id revision files
        (files.filter (fun f => py_endswith f.path ".safetensors")) =
        .ok (files.filter (fun f => py_endswith f.path ".safetensors"))) := by
  refine ⟨?_, ?_, ?_⟩
  · intro hidx
    unfold resolve_shards
    rw [hidx]
  · intro i rest resp d hidx hcl h200 hpd
    unfold resolve_shards
    rw [hidx]
    dsimp only
    rw [hcl]
    dsimp only
    rw [if_pos h200, hpd]
    dsimp only
    refine ⟨_, rfl, ?_⟩
    intro p
    constructor
    · rintro ⟨f, hf, hfp⟩
      rw [List.mem_filter] at hf
      subst hfp
      refine ⟨⟨f, hf.1, rfl⟩, ?_⟩
      exact List.mem_dedup.mp (List.elem_iff.mp hf.2)
    · rintro ⟨⟨f, hf, hfp⟩, hpv⟩
      refine ⟨f, ?_, hfp⟩
      rw [List.mem_filter]
      refine ⟨hf, List.elem_iff.mpr ?_⟩
      rw [hfp, List.mem_dedup]
      exact hpv
  · intro i rest resp hidx hcl h200
    unfold resolve_shards
    rw [hidx]
    dsimp only
    rw [hcl]
    dsimp only
    rw [if_neg h200]

def w3Files : List FileEntry :=
  [⟨"a.safetensors"⟩, ⟨"b.safetensors"⟩, ⟨"model.safetensors.index.json"⟩]

def w3IdxUrl : String := resolve_url "a/b" "main" "model.safetensors.index.json"

def w3Client : Req → Except Fault Resp := fun req =>
  if req = .plain w3IdxUrl then .ok ⟨200, [2]⟩ else .error .timeout

def w3ParseIdx : List Nat → Option IdxData := fun c =>
  if c = [2] then some ⟨some [("t", "b.safetensors")]⟩ else none

theorem C3_witness :
    ∃ out, resolve_shards w3Client w3ParseIdx "a/b" "main" w3Files
        (w3Files.filter (fun f => py_endswith f.path ".safetensors")) = .ok out ∧
      ∀ p : String, (∃ f ∈ out, f.path = p) ↔
        ((∃ f ∈ w3Files, f.path = p) ∧
         p ∈ ((some [("t", "b.safetensors")] : Option (List (String × String))).getD
                []).map Prod.snd) :=
  (C3_shard_resolution w3Client w3ParseIdx "a/b" "main" w3Files).2.1
    ⟨"model.safetensors.index.json"⟩ [] ⟨200, [2]⟩ ⟨some [("t", "b.safetensors")]⟩
    (by decide) (by decide) (by decide) (by decide)

def cex4Files : List FileEntry := [⟨"a.safetensors"⟩, ⟨"model.safetensors.index.json"⟩]

def cex4IdxUrl : String := resolve_url "a/b" "main" "model.safetensors.index.json"

def cex4Client : Req → Except Fault Resp := fun req =>
  if req = .plain (api_url "a/b" "main") then .ok ⟨200, [0]⟩
  else if req = .plain cex4IdxUrl then .ok ⟨200, [2]⟩
  else .error .timeout

def cex4ParseFiles : List Nat → Option (List FileEntry) := fun c =>
  if c = [0] then some cex4Files else none

def cex4ParseIdx : List Nat → Option IdxData := fun c =>
  if c = [2] then some ⟨some [("t", "zz.safetensors")]⟩ else none

def cex4ParseMeta : List Nat → Option Meta := fun _ => none

/-- C4 counterexample: a listing holding `a.safetensors` plus an index
whose weight_map references only a file absent from the listing.  Shard
resolution leaves zero candidate files, yet the result is the
`UnparseableMetadata` message ("Could not parse model metadata"), not the
`NoWeightFiles` one — the code checks for an empty candidate set before
shard resolution, not after it, contradicting the claim. -/
theorem C4_counterexample :
    resolve_shards cex4Client cex4ParseIdx "a/b" "main" cex4Files
      (cex4Files.filter (fun f => py_endswith f.path ".safetensors")) = .ok [] ∧
    estimate_memory cex4Client cex4ParseFiles cex4ParseIdx cex4ParseMeta "a/b" "main" =
      .error "Could not parse model metadata" ∧
    estimate_memory cex4Client cex4ParseFiles cex4ParseIdx cex4ParseMeta "a/b" "main" ≠
      .error "No safetensors files found in model" := by
  decide

theorem run_estimate_no_files (client : Req → Except Fault Resp)
    (parseFiles : List Nat → Option (List FileEntry))
    (parseIdx : List Nat → Option IdxData)
    (parseMeta : List Nat → Option Meta)
    (mid revision : String) (resp : Resp) (files : List FileEntry)
    (hcl : client (.plain (api_url mid revision)) = .ok resp)
    (h200 : resp.status = 200)
    (hpf : parseFiles resp.content = some files)
    (hfil : files.filter (fun f => py_endswith f.path ".safetensors") = []) :
    run_estimate client parseFiles parseIdx parseMeta mid revision =
      .ok (.error "No safetensors files found in model") := by
  unfold run_estimate
  rw [hcl]
  dsimp only
  rw [if_neg (by omega), hpf]
  dsimp only
  rw [if_pos hfil]

theorem run_estimate_zero_params (client : Req → Except Fault Resp)
    (parseFiles : List Nat → Option (List FileEntry))
    (parseIdx : List Nat → Option IdxData)
    (parseMeta : List Nat → Option Meta)
    (mid revision : String) (resp : Resp) (files resolved : List FileEntry)
    (hcl : client (.plain (api_url mid revision)) = .ok resp)
    (h200 : resp.status = 200)
    (hpf : parseFiles resp.content = some files)
    (hne : files.filter (fun f => py_endswith f.path ".safetensors") ≠ [])
    (hres : resolve_shards client parseIdx mid revision files
      (files.filter (fun f => py_endswith f.path ".safetensors")) = .ok resolved)
    (hz : (aggregate client parseMeta mid revision resolved).1 = 0) :
    run_estimate client parseFiles parseIdx parseMeta mid revision =
      .ok (.error "Could not parse model metadata") := by
  unfold run_estimate
  rw [hcl]
  dsimp only
  rw [if_neg (by omega), hpf]
  dsimp only
  rw [if_neg hne, hres]
  dsimp only
  rw [if_pos hz]

theorem estimate_memory_valid (client : Req → Except Fault Resp)
    (parseFiles : List Nat → Option (List FileEntry))
    (parseIdx : List Nat → Option IdxData)
    (parseMeta : List Nat → Option Meta)
    (model_id revision : String)
    (hv : ¬ (model_id = "" ∨ model_id.toList.contains '/' = false))
    (hd : DENYLIST.any (fun c => (pyStrip model_id).toList.contains c) = false) :
    estimate_memory client parseFiles parseIdx parseMeta model_id revision =
      (match run_estimate client parseFiles parseIdx parseMeta (pyStrip model_id) revision with
       | .ok r => r
       | .error .timeout => .error "Request to HuggingFace timed out. Try again."
       | .error (.other m) => .error ("Failed to fetch model info: " ++ m)) := by
  unfold estimate_memory
  rw [if_neg hv]
  dsimp only
  have hd2 : ¬ (DENYLIST.any (fun c => (pyStrip model_id).toList.contains c) = true) := by
    rw [hd]
    simp
  rw [if_neg hd2]

/-- C4 (amended): the empty-candidate check runs before shard resolution —
a listing with no `.safetensors` entry yields the `NoWeightFiles` error
("No safetensors files found in model"); when candidates exist but the
aggregated total parameter count is zero (including when shard resolution
has emptied the candidate set), the result is the `UnparseableMetadata`
error ("Could not parse model metadata"); and no success report is
produced with a zero total parameter count. -/
theorem C4_error_escalation (client : Req → Except Fault Resp)
    (parseFiles : List Nat → Option (List FileEntry))
    (parseIdx : List Nat → Option IdxData)
    (parseMeta : List Nat → Option Meta)
    (model_id revision : String)
    (hv : ¬ (model_id = "" ∨ model_id.toList.contains '/' = false))
    (hd : DENYLIST.any (fun c => (pyStrip model_id).toList.contains c) = false) :
    (∀ resp files,
      client (.plain (api_url (pyStrip model_id) revision)) = .ok resp →
      resp.status = 200 →
      parseFiles resp.content = some files →
      files.filter (fun f => py_endswith f.path ".safetensors") = [] →
      estimate_memory client parseFiles parseIdx parseMeta model_id revision =
        .error "No safetensors files found in model") ∧
    (∀ resp files resolved,
      client (.plain (api_url (pyStrip model_id) revision)) = .ok resp →
      resp.status = 200 →
      parseFiles resp.content = some files →
      files.filter (fun f => py_endswith f.path ".safetensors") ≠ [] →
      resolve_shards client parseIdx (pyStrip model_id) revision files
        (files.filter (fun f => py_endswith f.path ".safetensors")) = .ok resolved →
      (aggregate client parseMeta (pyStrip model_id) revision resolved).1 = 0 →
      estimate_memory client parseFiles parseIdx parseMeta model_id revision =
        .error "Could not parse model metadata") ∧
    (∀ r, estimate_memory client parseFiles parseIdx parseMeta model_id revision = .ok r →
      ∃ resolved,
        (aggregate client parseMeta (pyStrip model_id) revision resolved).1 ≠ 0 ∧
        r.total_parameters =
          fmt_params (aggregate client parseMeta (pyStrip model_id) revision resolved).1) := by
  refine ⟨?_, ?_, ?_⟩
  · intro resp files hcl h200 hpf hfil
    rw [estimate_memory_valid client parseFiles parseIdx parseMeta model_id revision hv hd]
    rw [run_estimate_no_files client parseFiles parseIdx parseMeta (pyStrip model_id)
        revision resp files hcl h200 hpf hfil]
  · intro resp files resolved hcl h200 hpf hne hres hz
    rw [estimate_memory_valid client parseFiles parseIdx parseMeta model_id revision hv hd]
    rw [run_estimate_zero_params client parseFiles parseIdx parseMeta (pyStrip model_id)
        revision resp files resolved hcl h200 hpf hne hres hz]
  · intro r hr
    obtain ⟨hv2, hd2, hrun⟩ :=
      estimate_memory_ok client parseFiles parseIdx parseMeta model_id revision r hr
    obtain ⟨resp, files, resolved, hcl, h200, hpf, hne, hres, hagg, hmax, hrec⟩ :=
      run_estimate_ok client parseFiles parseIdx parseMeta (pyStrip model_id) revision r hrun
    exact ⟨resolved, hagg, by rw [hrec]⟩

theorem C4_witness :
    ∃ resolved,
      (aggregate demoClient demoParseMeta (pyStrip "a/b") "main" resolved).1 ≠ 0 ∧
      demoReport.total_parameters =
        fmt_params (aggregate demoClient demoParseMeta (pyStrip "a/b") "main" resolved).1 :=
  (C4_error_escalation demoClient demoParseFiles demoParseIdx demoParseMeta "a/b" "main"
    (by decide) (by decide)).2.2 demoReport (by decide)
